import Mathlib

/-!
Verification of the MQTT-to-WebSocket bridge in src/backend/server.js.

The script connects to an MQTT broker, classifies each inbound message by
topic into a typed wsMessage envelope, and fans it out over the currently
connected WebSocket clients; it also serves a GET /health endpoint on the
same port.

Modelling notes for the shallow embedding:
* JSON.parse is a JavaScript builtin, not code of this repository; it is
  modelled as a parameter parse : String → Option α, where none stands for
  a thrown SyntaxError (the route body is Except-valued so the throw is
  visible, and the surrounding try/catch of the message handler turns it
  into a dropped message).
* client.send on a socket whose readyState is OPEN does not throw
  synchronously in the ws library: a send failure surfaces asynchronously
  as an error event on that connection, which the per-connection error
  handler (server.js lines 120-122) logs. The model gives each client a
  sendFails flag; a failing open client ends up in errorLogged instead of
  delivered, and the fan-out loop continues past it.
* The runtime is single-threaded and event-driven, so the client set and
  the readyState fields cannot change while the forEach of one broadcast
  runs; broadcast therefore takes the client list as it stands at call
  time.
* Timestamps (Date.now()) are passed in as a parameter now : Nat.
-/

namespace FaceServo

/-- Team identity string (server.js line 14). -/
def TEAM_ID : String := "BACK-BENCHERS"

/-- Exact movement topic, vision/BACK-BENCHERS/movement (line 17). -/
def TOPIC_MOVEMENT : String := "vision/" ++ TEAM_ID ++ "/movement"

/-- Exact heartbeat topic, vision/BACK-BENCHERS/heartbeat (line 18). -/
def TOPIC_HEARTBEAT : String := "vision/" ++ TEAM_ID ++ "/heartbeat"

/-- The payload slot of a wsMessage envelope: either the JSON.parse result
(movement and heartbeat topics), the object literal with a status key built
at lines 146-148, or the object literal with a raw key built at line 152. -/
inductive MsgData (α : Type) where
  | parsed (v : α)
  | status (s : String)
  | raw (s : String)
deriving DecidableEq

/-- The wsMessage object built at lines 155-160. -/
structure WsMessage (α : Type) where
  type : String
  topic : String
  data : MsgData α
  received_at : Nat
deriving DecidableEq

/-- The JavaScript builtin String.prototype.startsWith, modelled as a
prefix test on the character lists: strStarts pre s is true when s begins
with pre. -/
def strStarts (pre s : String) : Bool := pre.data.isPrefixOf s.data

/-- The topic routing of the MQTT message handler (lines 134-153).
Except.error models the SyntaxError thrown by JSON.parse on a malformed
payload escaping this block. -/
def routeMessage {α : Type} (parse : String → Option α) (topic msgString : String) :
    Except Unit (String × MsgData α) :=
  if topic = TOPIC_MOVEMENT then
    match parse msgString with
    | some v => Except.ok ("movement", MsgData.parsed v)
    | none => Except.error ()
  else if topic = TOPIC_HEARTBEAT then
    match parse msgString with
    | some v => Except.ok ("heartbeat", MsgData.parsed v)
    | none => Except.error ()
  else if strStarts "iot/status/" topic then
    Except.ok ("device_status", MsgData.status msgString)
  else
    Except.ok ("unknown", MsgData.raw msgString)

/-- WebSocket readyState values. -/
inductive ReadyState where
  | CONNECTING
  | OPEN
  | CLOSING
  | CLOSED
deriving DecidableEq

/-- One WebSocket client as the broadcast loop sees it: its id, its current
readyState, and whether a send on its socket fails (asynchronously). -/
structure Client where
  id : Nat
  readyState : ReadyState
  sendFails : Bool
deriving DecidableEq

/-- The readyState test guarding each send (line 164). -/
def isOpen (c : Client) : Bool := decide (c.readyState = ReadyState.OPEN)

/-- Outcome of one fan-out loop (lines 162-168): the clients whose send
delivered the serialized envelope, the clients whose send failed and got a
per-connection error log, the final value of sentCount, and the number of
JSON.stringify invocations performed. -/
structure BroadcastResult where
  delivered : List Client
  errorLogged : List Client
  sentCount : Nat
  stringifyCalls : Nat
deriving DecidableEq

/-- One iteration of wss.clients.forEach (lines 163-168): a client whose
readyState is OPEN is sent JSON.stringify(wsMessage) — one stringify call
per such client — and sentCount is incremented; any other client is
skipped. -/
def broadcastStep (acc : BroadcastResult) (c : Client) : BroadcastResult :=
  if c.readyState = ReadyState.OPEN then
    { delivered := if c.sendFails then acc.delivered else acc.delivered ++ [c],
      errorLogged := if c.sendFails then acc.errorLogged ++ [c] else acc.errorLogged,
      sentCount := acc.sentCount + 1,
      stringifyCalls := acc.stringifyCalls + 1 }
  else acc

/-- The whole fan-out loop of lines 162-168, starting from sentCount = 0. -/
def broadcast (clients : List Client) : BroadcastResult :=
  clients.foldl broadcastStep
    { delivered := [], errorLogged := [], sentCount := 0, stringifyCalls := 0 }

/-- The conditional log after the loop (lines 170-172): the sentCount value
is logged only when it is positive. -/
def broadcastLog (clients : List Client) : Option Nat :=
  if 0 < (broadcast clients).sentCount then some (broadcast clients).sentCount else none

/-- The complete MQTT message handler (lines 126-179): route the message,
build the wsMessage envelope, and broadcast it; when routing throws (parse
failure), the catch at lines 174-178 logs and the message is dropped, so no
envelope is produced. -/
def onMqttMessage {α : Type} (parse : String → Option α) (now : Nat)
    (clients : List Client) (topic msgString : String) :
    Option (WsMessage α × BroadcastResult) :=
  match routeMessage parse topic msgString with
  | Except.ok (t, payload) =>
      some ({ type := t, topic := topic, data := payload, received_at := now },
        broadcast clients)
  | Except.error _ => none

/-- A run of the handler over a sequence of inbound broker messages
(topic, payload): the handler keeps no state across calls, so the run is a
map. -/
def processMessages {α : Type} (parse : String → Option α) (now : Nat)
    (clients : List Client) (msgs : List (String × String)) :
    List (Option (WsMessage α × BroadcastResult)) :=
  msgs.map (fun m => onMqttMessage parse now clients m.1 m.2)

/-- JSON scalar values appearing in the health body. -/
inductive JVal where
  | str (s : String)
  | bool (b : Bool)
  | num (n : Nat)
deriving DecidableEq

/-- An HTTP response body: the serialized JSON object of the health route,
or the plain text of the 404 route. -/
inductive RespBody where
  | json (fields : List (String × JVal))
  | text (s : String)
deriving DecidableEq

/-- The JSON object serialized by the health route (lines 71-76), with keys
in insertion order: status, mqtt, ws_clients, timestamp. wsClientsSize is
wss.clients.size, the number of clients registered with the server in any
state. -/
def healthBody (mqttConnected : Bool) (wsClientsSize : Nat) (now : Nat) :
    List (String × JVal) :=
  [("status", JVal.str "healthy"),
   ("mqtt", JVal.bool mqttConnected),
   ("ws_clients", JVal.num wsClientsSize),
   ("timestamp", JVal.num now)]

/-- The HTTP request handler (lines 67-81): /health answers 200 with the
health body, every other url answers 404 with the text Not Found. -/
def handleRequest (url : String) (mqttConnected : Bool) (clients : List Client)
    (now : Nat) : Nat × RespBody :=
  if url = "/health" then
    (200, RespBody.json (healthBody mqttConnected clients.length now))
  else
    (404, RespBody.text "Not Found")

/-- The field list of a response, empty for a text body. -/
def respFields : Nat × RespBody → List (String × JVal)
  | (_, RespBody.json fs) => fs
  | (_, RespBody.text _) => []

/-- Key lookup in a serialized JSON object. -/
def jsonLookup (fields : List (String × JVal)) (k : String) : Option JVal :=
  (fields.find? (fun p => decide (p.1 = k))).map (fun p => p.2)

/-- Connection lifecycle events seen by the WebSocket server. -/
inductive WsEvent where
  | accept
  | close (id : Nat)
deriving DecidableEq

/-- The ids handed out over a sequence of lifecycle events, starting from a
given value of the module-level counter clientCount (line 88): an accept
runs clientId = ++clientCount (line 91), a close leaves the counter
untouched (lines 115-118 only log). -/
def assignedIds : Nat → List WsEvent → List Nat
  | _, [] => []
  | n, WsEvent.accept :: es => (n + 1) :: assignedIds (n + 1) es
  | n, WsEvent.close _ :: es => assignedIds n es

/-- Sample parse function standing in for JSON.parse in concrete witnesses:
it accepts exactly the string 7. -/
def toyParse (s : String) : Option Nat := if s = "7" then some 7 else none

/-- A client whose send fails followed by a healthy one, both open. -/
def twoClients : List Client :=
  [{ id := 1, readyState := ReadyState.OPEN, sendFails := true },
   { id := 2, readyState := ReadyState.OPEN, sendFails := false }]

/-- Two open clients and one that is closing, as registered with the
server. -/
def threeClients : List Client :=
  [{ id := 1, readyState := ReadyState.OPEN, sendFails := false },
   { id := 2, readyState := ReadyState.OPEN, sendFails := false },
   { id := 3, readyState := ReadyState.CLOSING, sendFails := false }]

/-- Closed form of the fan-out loop: delivered collects the open clients
whose send succeeds, errorLogged the open clients whose send fails, and
both counters equal the number of open clients. -/
lemma foldl_broadcastStep (cs : List Client) (acc : BroadcastResult) :
    cs.foldl broadcastStep acc =
      { delivered := acc.delivered ++ (cs.filter isOpen).filter (fun c => !c.sendFails),
        errorLogged := acc.errorLogged ++ (cs.filter isOpen).filter (fun c => c.sendFails),
        sentCount := acc.sentCount + (cs.filter isOpen).length,
        stringifyCalls := acc.stringifyCalls + (cs.filter isOpen).length } := by
  induction cs generalizing acc with
  | nil => simp
  | cons c cs ih =>
    rw [List.foldl_cons, ih]
    by_cases hop : c.readyState = ReadyState.OPEN
    · by_cases hf : c.sendFails = true
      · simp [broadcastStep, isOpen, hop, hf, List.filter_cons]
        omega
      · simp at hf
        simp [broadcastStep, isOpen, hop, hf, List.filter_cons]
        omega
    · simp [broadcastStep, isOpen, hop, List.filter_cons]

/-- Closed form of broadcast itself. -/
lemma broadcast_eq (clients : List Client) :
    broadcast clients =
      { delivered := (clients.filter isOpen).filter (fun c => !c.sendFails),
        errorLogged := (clients.filter isOpen).filter (fun c => c.sendFails),
        sentCount := (clients.filter isOpen).length,
        stringifyCalls := (clients.filter isOpen).length } := by
  rw [broadcast, foldl_broadcastStep]
  simp

/-- The movement and heartbeat topics differ. -/
lemma heartbeat_ne_movement : TOPIC_HEARTBEAT ≠ TOPIC_MOVEMENT := by decide

/-- C1: for an inbound message on the movement topic (resp. the heartbeat
topic) whose payload parses, the handler produces exactly one envelope,
with messageType movement (resp. heartbeat) and data equal to the parsed
payload. -/
theorem route_movement_heartbeat_json {α : Type} (parse : String → Option α)
    (now : Nat) (clients : List Client) (msg : String) (v : α)
    (hparse : parse msg = some v) :
    onMqttMessage parse now clients TOPIC_MOVEMENT msg =
      some ({ type := "movement", topic := TOPIC_MOVEMENT,
              data := MsgData.parsed v, received_at := now }, broadcast clients) ∧
    onMqttMessage parse now clients TOPIC_HEARTBEAT msg =
      some ({ type := "heartbeat", topic := TOPIC_HEARTBEAT,
              data := MsgData.parsed v, received_at := now }, broadcast clients) := by
  constructor
  · simp [onMqttMessage, routeMessage, hparse]
  · simp [onMqttMessage, routeMessage, hparse, heartbeat_ne_movement]

/-- Witness for C1 at a concrete parse function, payload and client set. -/
theorem route_movement_heartbeat_json_witness :
    onMqttMessage toyParse 5 twoClients TOPIC_MOVEMENT "7" =
      some ({ type := "movement", topic := TOPIC_MOVEMENT,
              data := MsgData.parsed 7, received_at := 5 }, broadcast twoClients) ∧
    onMqttMessage toyParse 5 twoClients TOPIC_HEARTBEAT "7" =
      some ({ type := "heartbeat", topic := TOPIC_HEARTBEAT,
              data := MsgData.parsed 7, received_at := 5 }, broadcast twoClients) :=
  route_movement_heartbeat_json toyParse 5 twoClients "7" 7 (by decide)

/-- C2: on the movement or heartbeat topic with a payload JSON.parse rejects,
the parse failure does not escape the message handler: routing throws
internally, the catch block drops the message (no envelope is broadcast),
and the processing of every subsequent message is unchanged. The code
implements the documented strict-drop policy. -/
theorem route_parse_failure_drops {α : Type} (parse : String → Option α)
    (now : Nat) (clients : List Client) (topic msg : String)
    (rest : List (String × String))
    (htopic : topic = TOPIC_MOVEMENT ∨ topic = TOPIC_HEARTBEAT)
    (hparse : parse msg = none) :
    routeMessage parse topic msg = Except.error () ∧
    onMqttMessage parse now clients topic msg = none ∧
    processMessages parse now clients ((topic, msg) :: rest) =
      none :: processMessages parse now clients rest := by
  have hroute : routeMessage parse topic msg = Except.error () := by
    rcases htopic with rfl | rfl
    · simp [routeMessage, hparse]
    · simp [routeMessage, hparse, heartbeat_ne_movement]
  refine ⟨hroute, ?_, ?_⟩
  · simp [onMqttMessage, hroute]
  · simp [processMessages, onMqttMessage, hroute]

/-- Witness for C2: a malformed movement payload is dropped and a following
well-formed message is processed as before. -/
theorem route_parse_failure_drops_witness :
    routeMessage toyParse TOPIC_MOVEMENT "not-json" = Except.error () ∧
    onMqttMessage toyParse 5 twoClients TOPIC_MOVEMENT "not-json" = none ∧
    processMessages toyParse 5 twoClients
        ((TOPIC_MOVEMENT, "not-json") :: [(TOPIC_MOVEMENT, "7")]) =
      none :: processMessages toyParse 5 twoClients [(TOPIC_MOVEMENT, "7")] :=
  route_parse_failure_drops toyParse 5 twoClients TOPIC_MOVEMENT "not-json"
    [(TOPIC_MOVEMENT, "7")] (Or.inl rfl) (by decide)

/-- C6: a topic with the device-status prefix that is neither the movement
nor the heartbeat topic yields messageType device_status and data
wrapping the original payload text verbatim, for every payload and
independently of the parse function (the payload is never parsed). -/
theorem route_device_status {α : Type} (parse : String → Option α)
    (now : Nat) (clients : List Client) (topic msg : String)
    (hpre : strStarts "iot/status/" topic = true)
    (hm : topic ≠ TOPIC_MOVEMENT) (hh : topic ≠ TOPIC_HEARTBEAT) :
    onMqttMessage parse now clients topic msg =
      some ({ type := "device_status", topic := topic,
              data := MsgData.status msg, received_at := now }, broadcast clients) := by
  simp [onMqttMessage, routeMessage, hpre, hm, hh]

/-- Witness for C6 at the scenario input: topic iot/status/sensor7 with the
plain-text payload OK. -/
theorem route_device_status_witness :
    onMqttMessage toyParse 5 twoClients "iot/status/sensor7" "OK" =
      some ({ type := "device_status", topic := "iot/status/sensor7",
              data := MsgData.status "OK", received_at := 5 }, broadcast twoClients) :=
  route_device_status toyParse 5 twoClients "iot/status/sensor7" "OK"
    (by decide) (by decide) (by decide)

/-- C7: a topic that is neither the movement topic, nor the heartbeat
topic, nor device-status prefixed yields messageType unknown and data
wrapping the original payload text under raw. -/
theorem route_unknown {α : Type} (parse : String → Option α)
    (now : Nat) (clients : List Client) (topic msg : String)
    (hpre : strStarts "iot/status/" topic = false)
    (hm : topic ≠ TOPIC_MOVEMENT) (hh : topic ≠ TOPIC_HEARTBEAT) :
    onMqttMessage parse now clients topic msg =
      some ({ type := "unknown", topic := topic,
              data := MsgData.raw msg, received_at := now }, broadcast clients) := by
  simp [onMqttMessage, routeMessage, hpre, hm, hh]

/-- Witness for C7 at an unrecognized topic. -/
theorem route_unknown_witness :
    onMqttMessage toyParse 5 twoClients "foo/bar" "hello" =
      some ({ type := "unknown", topic := "foo/bar",
              data := MsgData.raw "hello", received_at := 5 }, broadcast twoClients) :=
  route_unknown toyParse 5 twoClients "foo/bar" "hello"
    (by decide) (by decide) (by decide)

/-- Filtering a list by a Bool predicate and by its complement splits its
length. -/
lemma length_filter_split (l : List Client) (p : Client → Bool) :
    (l.filter (fun c => !p c)).length + (l.filter p).length = l.length := by
  induction l with
  | nil => simp
  | cons c cs ih =>
    by_cases h : p c = true <;> simp [List.filter_cons, h] <;> omega

/-- C3: during one fan-out over a client set containing a failing open
client a and a healthy open client b, the failure is recorded as a
per-connection error log for a alone, while b still receives the envelope
in the same broadcast call; broadcast is a total function, so no error is
raised past it. -/
theorem broadcast_failure_isolated (clients : List Client) (a b : Client)
    (ha : a ∈ clients) (haOpen : a.readyState = ReadyState.OPEN)
    (haFail : a.sendFails = true)
    (hb : b ∈ clients) (hbOpen : b.readyState = ReadyState.OPEN)
    (hbOk : b.sendFails = false) :
    b ∈ (broadcast clients).delivered ∧ a ∈ (broadcast clients).errorLogged := by
  rw [broadcast_eq]
  constructor
  · simp [List.mem_filter, isOpen, hb, hbOpen, hbOk]
  · simp [List.mem_filter, isOpen, ha, haOpen, haFail]

/-- Witness for C3: in twoClients, the send to client 1 fails and client 2
still gets the envelope in the same broadcast. -/
theorem broadcast_failure_isolated_witness :
    ({ id := 2, readyState := ReadyState.OPEN, sendFails := false } : Client) ∈
      (broadcast twoClients).delivered ∧
    ({ id := 1, readyState := ReadyState.OPEN, sendFails := true } : Client) ∈
      (broadcast twoClients).errorLogged :=
  broadcast_failure_isolated twoClients
    { id := 1, readyState := ReadyState.OPEN, sendFails := true }
    { id := 2, readyState := ReadyState.OPEN, sendFails := false }
    (by decide) (by decide) (by decide) (by decide) (by decide) (by decide)

/-- C5: the clients attempted a send during a broadcast (delivered or
error-logged) are exactly the clients of the registry whose readyState is
OPEN at the moment the broadcast runs; in particular a connection that has
left OPEN is never sent to. -/
theorem broadcast_attempts_iff_open (clients : List Client) (c : Client) :
    (c ∈ (broadcast clients).delivered ∨ c ∈ (broadcast clients).errorLogged) ↔
      c ∈ clients ∧ c.readyState = ReadyState.OPEN := by
  rw [broadcast_eq]
  by_cases hf : c.sendFails = true <;>
    simp [List.mem_filter, isOpen, hf]

/-- C4 counterexample: with the broker disconnected and three registered
clients (two open, one closing), the health body has no mqttConnected and
no wsClients key; the broker flag is under the key mqtt and the client
count is under ws_clients, and that count is 3, the number of registered
clients, not the number (2) of open ones. -/
theorem health_shape_counterexample :
    (handleRequest "/health" false threeClients 1759).1 = 200 ∧
    jsonLookup (respFields (handleRequest "/health" false threeClients 1759))
      "mqttConnected" = none ∧
    jsonLookup (respFields (handleRequest "/health" false threeClients 1759))
      "wsClients" = none ∧
    jsonLookup (respFields (handleRequest "/health" false threeClients 1759))
      "mqtt" = some (JVal.bool false) ∧
    jsonLookup (respFields (handleRequest "/health" false threeClients 1759))
      "ws_clients" = some (JVal.num 3) ∧
    (threeClients.filter isOpen).length = 2 := by decide

/-- C4 amended: GET /health answers 200 with the JSON object
containing, in order, status healthy, mqtt (broker connectivity), ws_clients
(count of all registered client connections, whatever their state) and
timestamp; any other url answers 404. -/
theorem health_route_amended (mq : Bool) (clients : List Client) (now : Nat)
    (url : String) (hurl : url ≠ "/health") :
    handleRequest "/health" mq clients now =
      (200, RespBody.json
        [("status", JVal.str "healthy"), ("mqtt", JVal.bool mq),
         ("ws_clients", JVal.num clients.length), ("timestamp", JVal.num now)]) ∧
    handleRequest url mq clients now = (404, RespBody.text "Not Found") := by
  constructor
  · simp [handleRequest, healthBody]
  · simp [handleRequest, hurl]

/-- Witness for the amended C4, at a url different from /health. -/
theorem health_route_amended_witness :
    handleRequest "/health" false threeClients 1759 =
      (200, RespBody.json
        [("status", JVal.str "healthy"), ("mqtt", JVal.bool false),
         ("ws_clients", JVal.num 3), ("timestamp", JVal.num 1759)]) ∧
    handleRequest "/nope" false threeClients 1759 =
      (404, RespBody.text "Not Found") :=
  health_route_amended false threeClients 1759 "/nope" (by decide)

/-- C8 counterexample: over twoClients (both open, the first with a failing
socket), JSON.stringify runs twice — once per open client, inside the loop
— not exactly once; and the logged sentCount is 2 although only one send
delivered. -/
theorem broadcast_serialize_counterexample :
    (broadcast twoClients).stringifyCalls = 2 ∧
    decide ((broadcast twoClients).stringifyCalls = 1) = false ∧
    (broadcast twoClients).sentCount = 2 ∧
    (broadcast twoClients).delivered.length = 1 := by decide

/-- C8 amended: the envelope object is built once per message, but
JSON.stringify is invoked once per open client, inside the loop; sentCount
equals the number of open clients attempted (counting sends that later
fail asynchronously), is logged exactly when positive, and bounds the
deliveries: delivered and error-logged clients together are the open
clients. -/
theorem broadcast_per_client_serialization (clients : List Client) :
    (broadcast clients).stringifyCalls = (clients.filter isOpen).length ∧
    (broadcast clients).sentCount = (clients.filter isOpen).length ∧
    (broadcast clients).delivered.length + (broadcast clients).errorLogged.length =
      (clients.filter isOpen).length ∧
    broadcastLog clients =
      if 0 < (clients.filter isOpen).length
      then some (clients.filter isOpen).length else none := by
  refine ⟨?_, ?_, ?_, ?_⟩
  · rw [broadcast_eq]
  · rw [broadcast_eq]
  · rw [broadcast_eq]
    exact length_filter_split (clients.filter isOpen) (fun c => c.sendFails)
  · simp [broadcastLog, broadcast_eq]

/-- Every id handed out from counter value n is strictly larger than n. -/
lemma mem_assignedIds_lt (es : List WsEvent) :
    ∀ n m : Nat, m ∈ assignedIds n es → n < m := by
  induction es with
  | nil => intro n m hm; simp [assignedIds] at hm
  | cons e es ih =>
    cases e with
    | accept =>
      intro n m hm
      simp only [assignedIds, List.mem_cons] at hm
      rcases hm with rfl | hm
      · omega
      · have := ih (n + 1) m hm
        omega
    | close i =>
      intro n m hm
      have := ih n m (by simpa [assignedIds] using hm)
      omega

/-- C9: over any sequence of accept and close events in one process
lifetime, the ids assigned at accept time are strictly increasing — each
accept gets a larger id than every earlier accept — so no id is ever
assigned twice, and since close events leave the counter untouched, an id
is never reused after its connection closes and is removed. -/
theorem assignedIds_strict_mono (events : List WsEvent) :
    List.Pairwise (fun a b => a < b) (assignedIds 0 events) ∧
    (assignedIds 0 events).Nodup := by
  have key : ∀ (es : List WsEvent) (n : Nat),
      List.Pairwise (fun a b => a < b) (assignedIds n es) := by
    intro es
    induction es with
    | nil => intro n; simp [assignedIds]
    | cons e es ih =>
      intro n
      cases e with
      | accept =>
        simp only [assignedIds]
        exact List.Pairwise.cons (fun m hm => mem_assignedIds_lt es (n + 1) m hm)
          (ih (n + 1))
      | close i => simpa [assignedIds] using ih n
  refine ⟨key events 0, ?_⟩
  exact (key events 0).imp (fun h => Nat.ne_of_lt h)

/-- C10: the health route reports ws_clients as the number of all
registered client connections whatever their state, while a broadcast
delivers only to clients whose readyState is OPEN (and whose socket does
not fail); hence there are states — for instance one registered client in
CLOSING state — where the health-reported count strictly exceeds the
number of clients a broadcast reaches. -/
theorem health_count_vs_broadcast_recipients :
    (∀ (mq : Bool) (clients : List Client) (now : Nat),
        jsonLookup (respFields (handleRequest "/health" mq clients now))
          "ws_clients" = some (JVal.num clients.length)) ∧
    (∀ clients : List Client,
        (broadcast clients).delivered =
          (clients.filter isOpen).filter (fun c => !c.sendFails)) ∧
    (∃ clients : List Client,
        (broadcast clients).delivered.length < clients.length) := by
  refine ⟨?_, ?_, ?_⟩
  · intro mq clients now
    rfl
  · intro clients
    rw [broadcast_eq]
  · exact ⟨[{ id := 1, readyState := ReadyState.CLOSING, sendFails := false }],
      by decide⟩

end FaceServo
